import Mathlib

/-!
Verification of the CES-Eats front end's core logic (shallow embedding).

The definitions below are translated from the TypeScript source:
  * `src/types/index.ts`            — data model (`Store`, `Review`, request shapes)
  * `src/components/OptionSelector.tsx` — distance/time conversion
  * `src/components/TrendingPlaces.tsx` — view-count baseline, trending ranking, messages
  * `src/app/page.tsx`              — recommendation state machine (filter, selection,
                                      radius clamp, paging, fetch wiring)
  * `src/lib/api.ts`                — `incrementPlaceView` response handling

JavaScript numbers appearing in the relevant code paths are integers or
decimal literals; they are modelled as `Int`/`ℚ`.  `Math.round` is modelled by
Mathlib's `round` (both are floor of `x + 1/2`).  JavaScript objects used as
string-keyed maps are modelled as association lists with last-write-wins
insertion; `Array.prototype.sort` (stable in ECMAScript) is modelled by the
stable `List.insertionSort`.
-/

namespace CesEats

/-- The `StoreType` from `src/types/index.ts`: the closed venue-category enumeration,
including the `all` sentinel and the `other` fallback. -/
inductive StoreType where
  | all | restaurant | cafe | fastfood | bar | food | bakery | meal_delivery
  | night_club | liquor_store | store | shopping_mall | supermarket
  | convenience_store | other
deriving DecidableEq

/-- The `Review` from `src/types/index.ts`. -/
structure Review where
  authorName : String
  rating : Int
  text : String
  time : Option Int
  relativeTimeDescription : Option String
deriving DecidableEq

/-- The `Store` from `src/types/index.ts` (the `types` list of raw Google Places tags
is carried by stores in the newer page variant). -/
structure Store where
  id : String
  name : String
  type : StoreType
  walkingTime : Int
  estimatedDuration : Int
  priceLevel : Nat
  cesReason : String
  latitude : ℚ
  longitude : ℚ
  address : Option String
  photos : List String
  reviews : List Review
  viewCount : Option Int
  viewCountIncrease : Option Int
  types : List String
deriving DecidableEq

/-- The `RecommendationRequest` from `src/types/index.ts`. -/
structure RecommendationRequest where
  latitude : ℚ
  longitude : ℚ
  timeOption : Int
  type : StoreType
deriving DecidableEq

/-- A latitude/longitude pair (the `{ lat, lng }` objects of `page.tsx`). -/
structure LatLng where
  lat : ℚ
  lng : ℚ
deriving DecidableEq

/-- The fixed origin (The Venetian Expo) from `page.tsx`. -/
def fixedLocation : LatLng := ⟨36.1215699, -115.1651093⟩

/-- The `clickedMapLocation` entries of `page.tsx`. -/
structure ClickedLocation where
  lat : ℚ
  lng : ℚ
  walkingTime : Int
  name : Option String
deriving DecidableEq

/-! ## GeoMath (`src/components/OptionSelector.tsx`, lines 19–29) -/

/-- The `distanceToTime` from `OptionSelector.tsx`: `Math.round((meters / 5000) * 60)`. -/
def distanceToTime (meters : ℚ) : ℤ := round (meters / 5000 * 60)

/-- The `timeToDistance` from `OptionSelector.tsx`: `Math.round((minutes / 60) * 5000)`. -/
def timeToDistance (minutes : ℚ) : ℤ := round (minutes / 60 * 5000)

/-! ## Radius clamp (`src/app/page.tsx`, radius-update effect) -/

/-- The body of the `radiusKm` update effect of `page.tsx`:
`let km = (timeOption / 60) * 5; if (km < 0.1) km = 0.1; if (km > 2.0) km = 2.0`. -/
def radiusForTimeOption (timeOption : ℚ) : ℚ :=
  let km := timeOption / 60 * 5
  let km1 := if km < 0.1 then 0.1 else km
  if km1 > 2.0 then 2.0 else km1

/-! ## ViewCountTracker (`src/components/TrendingPlaces.tsx`) -/

/-- The per-store increase resolution inlined in `topStores`
(`TrendingPlaces.tsx`, lines 73–82): use a non-zero backend-supplied
`viewCountIncrease` unchanged, otherwise fall back to
`Math.max(0, currentViewCount - (previousViewCounts[store.id] ?? currentViewCount))`
when a current view count exists. -/
def computeIncrease (previousViewCounts : List (String × Int)) (s : Store) : Int :=
  let viewCountIncrease := s.viewCountIncrease.getD 0
  if viewCountIncrease = 0 ∧ s.viewCount.isSome then
    let currentViewCount := s.viewCount.getD 0
    let previousViewCount := (previousViewCounts.lookup s.id).getD currentViewCount
    max 0 (currentViewCount - previousViewCount)
  else viewCountIncrease

/-- The snapshot seeded from current counts
(`currentViewCounts[store.id] = store.viewCount ?? 0` over `stores.forEach`).
A JavaScript object assignment is last-write-wins, so the association list is
reversed to make `List.lookup` return the last assignment. -/
def seedSnapshot (stores : List Store) : List (String × Int) :=
  (stores.map (fun s => (s.id, s.viewCount.getD 0))).reverse

/-- Result of the initialization effect: the new in-memory baseline and the
key/timestamp pair written to `localStorage` (`none` when nothing is written). -/
structure InitResult where
  baseline : List (String × Int)
  persisted : Option (List (String × Int) × Int)
deriving DecidableEq

/-- The `10 * 60 * 1000` — the ten-minute snapshot window in milliseconds. -/
def tenMinutesMs : Int := 10 * 60 * 1000

/-- The `localStorage` initialization effect of `TrendingPlaces.tsx`
(lines 112–151), with the stored strings already parsed: bail out when the
store list is empty or the baseline is already populated; reuse a stored
snapshot younger than ten minutes; otherwise reseed from current counts and
persist the fresh snapshot with the current time. -/
def initializeViewCounts (stores : List Store) (previousViewCounts : List (String × Int))
    (savedViewCounts : Option (List (String × Int))) (savedTimestamp : Option Int)
    (now : Int) : InitResult :=
  if stores.length = 0 ∨ previousViewCounts.length ≠ 0 then
    ⟨previousViewCounts, none⟩
  else
    match savedViewCounts, savedTimestamp with
    | some saved, some timestamp =>
        if now - timestamp < tenMinutesMs then ⟨saved, none⟩
        else ⟨seedSnapshot stores, some (seedSnapshot stores, now)⟩
    | _, _ => ⟨seedSnapshot stores, some (seedSnapshot stores, now)⟩

/-! ## TrendingRanker (`src/components/TrendingPlaces.tsx`, lines 70–109) -/

/-- The `RankedStore` of `TrendingPlaces.tsx`: a store together with its resolved
increase and (after ranking) its 1-based rank. -/
structure RankedStore where
  store : Store
  viewCountIncrease : Int
  currentRank : Nat
deriving DecidableEq

/-- The `a.viewCount ?? 0` as used by the sort comparator. -/
def rankedCount (r : RankedStore) : Int := r.store.viewCount.getD 0

/-- The sort comparator of `topStores`: descending by increase, ties broken by
descending total view count. -/
def storeCmp (a b : RankedStore) : Int :=
  if b.viewCountIncrease ≠ a.viewCountIncrease then
    b.viewCountIncrease - a.viewCountIncrease
  else rankedCount b - rankedCount a

/-- The `a` may be placed no later than `b`: the comparator is non-positive. -/
def storeLe (a b : RankedStore) : Prop := storeCmp a b ≤ 0

instance : DecidableRel storeLe :=
  fun a b => inferInstanceAs (Decidable (storeCmp a b ≤ 0))

/-- The `stores.map` step of `topStores`: attach the resolved increase
(the rank is assigned later). -/
def addIncrease (previousViewCounts : List (String × Int)) (s : Store) : RankedStore :=
  ⟨s, computeIncrease previousViewCounts s, 0⟩

/-- The final `sortedStores.map((store, index) => ({ ...store, currentRank: index + 1 }))`
step, as a recursion on the list with the next rank as accumulator. -/
def assignRanks : Nat → List RankedStore → List RankedStore
  | _, [] => []
  | n, r :: rest => { r with currentRank := n } :: assignRanks (n + 1) rest

/-- The `topStores` from `TrendingPlaces.tsx`: resolve increases, stable-sort by the
comparator, keep the first three, and assign 1-based ranks. -/
def topStores (previousViewCounts : List (String × Int)) (stores : List Store) :
    List RankedStore :=
  let storesWithIncrease := stores.map (addIncrease previousViewCounts)
  let sortedStores := (storesWithIncrease.insertionSort storeLe).take 3
  assignRanks 1 sortedStores

/-! ## Trending messages (`TrendingPlaces.tsx`, lines 38–68) -/

/-- The `getTrendingMessage` from `TrendingPlaces.tsx`. -/
def getTrendingMessage (rank : Nat) (viewCount : Int) (viewCountIncrease : Int) : String :=
  if rank = 1 then
    if viewCount ≥ 50 then "가장 많은 사람이 보고 있어요!"
    else if viewCount ≥ 20 then "많은 사람들이 관심을 보이고 있어요!"
    else "인기 있는 곳이에요!"
  else if rank = 2 then
    if viewCountIncrease ≥ 5 then
      "급상승! 10분 동안 " ++ toString viewCountIncrease ++ "명이 더 봤어요!"
    else if viewCountIncrease > 0 then
      "인기 상승 중! " ++ toString viewCountIncrease ++ "명이 더 봤어요!"
    else "인기 있는 곳이에요!"
  else if rank = 3 then
    if viewCountIncrease ≥ 3 then
      "10분 동안 조회수가 " ++ toString viewCountIncrease ++ "명이 넘게 보고 있어요!"
    else if viewCountIncrease > 0 then
      toString viewCountIncrease ++ "명이 더 찾고 있어요!"
    else "많은 사람들이 찾고 있어요!"
  else "많은 사람들이 찾고 있어요!"

/-! ## Recommendation state machine (`src/app/page.tsx`) -/

/-- The `Home` component state relevant to the claims (`page.tsx` `useState` hooks). -/
structure HomeState where
  timeOption : Int
  type : StoreType
  location : Option LatLng
  stores : List Store
  loading : Bool
  error : Option String
  selectedStore : Option Store
  radiusKm : ℚ
  clickedMapLocation : Option ClickedLocation
  displayedCount : Nat
deriving DecidableEq

/-- The `const currentLocation = location || fixedLocation`. -/
def currentLocation (st : HomeState) : LatLng := st.location.getD fixedLocation

/-- The request body built by `fetchRecommendations` (`page.tsx`): latitude and
longitude of the current location, the current `timeOption`, and — per the
source comment "항상 'all'로 전송" — the `type` field hard-coded to `'all'`. -/
def recommendationRequest (st : HomeState) : RecommendationRequest :=
  { latitude := (currentLocation st).lat
    longitude := (currentLocation st).lng
    timeOption := st.timeOption
    type := StoreType.all }

/-- State updates performed by `fetchRecommendations` before awaiting:
`setLoading(true); setError(null); setSelectedStore(null)`. -/
def fetchStart (st : HomeState) : HomeState :=
  { st with loading := true, error := none, selectedStore := none }

/-- State updates on fetch success: `setStores(response.stores);
setDisplayedCount(10)` and finally `setLoading(false)`. -/
def fetchSuccess (st : HomeState) (responseStores : List Store) : HomeState :=
  { st with stores := responseStores, displayedCount := 10, loading := false }

/-- State updates on fetch failure: `setError(message); setStores([])` and
finally `setLoading(false)`. -/
def fetchFailure (st : HomeState) (message : String) : HomeState :=
  { st with error := some message, stores := [], loading := false }

/-- The dependency data of the fetch-on-parameter-change effect
(`useEffect(..., [location, timeOption, type, fetchRecommendations])`, where the
`fetchRecommendations` callback identity itself depends on `[location, timeOption]`). -/
def fetchEffectDeps (st : HomeState) : Option LatLng × Int × StoreType :=
  (st.location, st.timeOption, st.type)

/-- Number of fetches dispatched by the effect for one state change: React runs
the effect exactly once per commit in which a dependency changed, and the
effect body calls `fetchRecommendations()` exactly once when `location` is set. -/
def fetchesDispatched (oldSt newSt : HomeState) : Nat :=
  if fetchEffectDeps oldSt ≠ fetchEffectDeps newSt ∧ newSt.location.isSome then 1 else 0

/-- The `setType(t)` via the `OptionSelector` callback (or programmatically). -/
def setTypeFilter (st : HomeState) (t : StoreType) : HomeState := { st with type := t }

/-- The `{ ...s, viewCount: updatedViewCount }` — a copy of a store with the view
count patched; the source store value is untouched. -/
def patchViewCount (v : Int) (s : Store) : Store := { s with viewCount := some v }

/-- The `handleMarkerClick(store)` from `page.tsx` (lines 1062–1103, non-null branch),
observed after the deferred `setSelectedStore` has settled.  `incrResult` is the
value returned by the awaited `incrementPlaceView` call (`none` = failure).
On success the store list is rebuilt with the clicked store's count patched and
the patched copy becomes the selection; the filter switches to the store's type
when that type is neither `'all'` nor the current filter. -/
def handleMarkerClick (st : HomeState) (store : Store) (incrResult : Option Int) :
    HomeState :=
  let updatedStores :=
    match incrResult with
    | some v => st.stores.map (fun s => if s.id = store.id then patchViewCount v s else s)
    | none => st.stores
  let updatedStore :=
    match incrResult with
    | some v => patchViewCount v store
    | none => store
  let newType :=
    if updatedStore.type ≠ StoreType.all ∧ updatedStore.type ≠ st.type then
      updatedStore.type
    else st.type
  { st with
    stores := updatedStores
    type := newType
    selectedStore := some updatedStore
    clickedMapLocation := none }

/-- The `handleMarkerClick(null)`: clear the selection and the clicked map location. -/
def handleMarkerClickNone (st : HomeState) : HomeState :=
  { st with selectedStore := none, clickedMapLocation := none }

/-! ## Infinite scroll paging (`page.tsx`, IntersectionObserver effect) -/

/-- The observer callback's state update (with `isIntersecting` true):
`if (displayedCount < stores.length) setDisplayedCount(prev => Math.min(prev + 10, stores.length))`. -/
def incrementDisplayPage (displayedCount storesLength : Nat) : Nat :=
  if displayedCount < storesLength then min (displayedCount + 10) storesLength
  else displayedCount

/-- Length of `filteredStores.slice(0, displayedCount)` — the number of venues
actually rendered from a filtered list of the given length. -/
def renderedCount (filteredLength displayedCount : Nat) : Nat :=
  min displayedCount filteredLength

/-! ## `incrementPlaceView` (`src/lib/api.ts`, lines 42–83) -/

/-- Outcome of `JSON.parse` on a response body: a number, or some non-number
JSON value (`none` means the parse threw). -/
inductive JsonValue where
  | num (n : ℚ)
  | nonNumber
deriving DecidableEq

/-- The observable parts of a `fetch` response used by `incrementPlaceView`. -/
structure FetchResponse where
  ok : Bool
  contentType : Option String
  body : String
deriving DecidableEq

/-- The `pat` is a character-wise prefix of `s`. -/
def startsWithChars : List Char → List Char → Bool
  | _, [] => true
  | [], _ :: _ => false
  | c :: cs, p :: ps => c == p && startsWithChars cs ps

/-- The `pat` occurs contiguously in `s`. -/
def containsChars (s pat : List Char) : Bool :=
  match s with
  | [] => startsWithChars [] pat
  | _ :: rest => startsWithChars s pat || containsChars rest pat

/-- The `ct.includes(pat)` for strings: `pat` occurs as a substring. -/
def containsSubstring (s pat : String) : Bool := containsChars s.data pat.data

/-- The `text.trim().length === 0`: the string consists only of whitespace
(trimming removes exactly the leading and trailing whitespace, so the trimmed
length is zero precisely when every character is whitespace). -/
def isBlank (s : String) : Bool := s.data.all Char.isWhitespace

/-- The `incrementPlaceView` from `api.ts`, with the network modelled by an optional
response (`none` = the fetch rejected; the surrounding `try`/`catch` returns
`null`) and `JSON.parse` passed in as `parseJson`.  Returns the parsed number
only for an ok response with a JSON content type and a non-blank body parsing
to a number; every other outcome yields `none`. -/
def incrementPlaceView (parseJson : String → Option JsonValue)
    (response : Option FetchResponse) : Option ℚ :=
  match response with
  | none => none
  | some r =>
    if ¬ r.ok then none
    else
      match r.contentType with
      | none => none
      | some ct =>
        if ¬ containsSubstring ct "application/json" then none
        else if isBlank r.body then none
        else
          match parseJson r.body with
          | some (JsonValue.num n) => some n
          | some JsonValue.nonNumber => none
          | none => none

/-! ## Concrete data used by witnesses and counterexamples -/

/-- A store with the given identity, type and view-count data and neutral
remaining fields. -/
def mkStore (id : String) (t : StoreType) (vc vci : Option Int) : Store :=
  { id := id, name := "", type := t, walkingTime := 0, estimatedDuration := 0,
    priceLevel := 1, cesReason := "", latitude := 0, longitude := 0,
    address := none, photos := [], reviews := [], viewCount := vc,
    viewCountIncrease := vci, types := [] }

/-- A concrete `Home` state: fixed origin set, default filter and paging. -/
def demoState : HomeState :=
  { timeOption := 24, type := StoreType.all, location := some fixedLocation,
    stores := [mkStore "p1" StoreType.cafe (some 3) none], loading := false,
    error := none, selectedStore := none, radiusKm := 2,
    clickedMapLocation := none, displayedCount := 10 }

/-! ## C9 — radius clamp -/

/-- C9: for every `timeOptionMinutes` value the effective radius equals
`clamp(timeOptionMinutes / 60 * 5, 0.1, 2.0)`, hence always lies in
`[0.1, 2.0]`; at the sample points 0, 1, 12, 24 and 9999 it evaluates to
0.1, 0.1, 1, 2 and 2, with `timeOption = 24` hitting the upper bound exactly. -/
theorem radius_clamp_spec :
    (∀ t : ℚ, radiusForTimeOption t = max 0.1 (min 2.0 (t / 60 * 5)) ∧
      0.1 ≤ radiusForTimeOption t ∧ radiusForTimeOption t ≤ 2.0) ∧
    radiusForTimeOption 0 = 0.1 ∧ radiusForTimeOption 1 = 0.1 ∧
    radiusForTimeOption 12 = 1 ∧ radiusForTimeOption 24 = 2 ∧
    radiusForTimeOption 9999 = 2 := by
  refine ⟨fun t => ?_, by norm_num [radiusForTimeOption], by norm_num [radiusForTimeOption],
    by norm_num [radiusForTimeOption], by norm_num [radiusForTimeOption],
    by norm_num [radiusForTimeOption]⟩
  unfold radiusForTimeOption
  rcases lt_or_le (t / 60 * 5) 0.1 with h1 | h1
  · have h2 : ¬ ((0.1 : ℚ) > 2.0) := by norm_num
    have h3 : min 2.0 (t / 60 * 5) = t / 60 * 5 := min_eq_right (by linarith)
    simp only [if_pos h1, if_neg h2, h3]
    refine ⟨(max_eq_left (by linarith)).symm, le_refl _, by norm_num⟩
  · have h1' : ¬ (t / 60 * 5 < 0.1) := not_lt.mpr h1
    rcases lt_or_le (2.0 : ℚ) (t / 60 * 5) with h2 | h2
    · simp only [if_neg h1', if_pos h2]
      have h3 : min 2.0 (t / 60 * 5) = 2.0 := min_eq_left (by linarith)
      refine ⟨by rw [h3, max_eq_right]; norm_num, by norm_num, le_refl _⟩
    · have h2' : ¬ (t / 60 * 5 > 2.0) := not_lt.mpr h2
      simp only [if_neg h1', if_neg h2']
      have h3 : min 2.0 (t / 60 * 5) = t / 60 * 5 := min_eq_right h2
      exact ⟨by rw [h3, max_eq_right h1], h1, h2⟩

/-! ## C7 — incrementDisplayPage -/

/-- C7: one load-more step changes the number of venues rendered from the
filtered list to `min (rendered + 10) filteredLength` — i.e. it grows by the
page size 10, capped at the filtered list's length, and is a no-op once the
cap is reached (note the code's guard and cap use the unfiltered length, but
the rendered count still obeys the claimed rule because the filtered list is
never longer than the full list). -/
theorem incrementDisplayPage_spec (stores : List Store) (p : Store → Bool) (d : Nat) :
    renderedCount (stores.filter p).length (incrementDisplayPage d stores.length) =
      min (renderedCount (stores.filter p).length d + 10) (stores.filter p).length := by
  have hf : (stores.filter p).length ≤ stores.length := List.length_filter_le p stores
  unfold incrementDisplayPage renderedCount
  split_ifs with h <;> omega

/-! ## C8 — meters/minutes round trip -/

/-- C8 counterexample: at `m = 100` meters the round trip yields 83, which is
17 units away from 100 — far outside the claimed ±1 tolerance. -/
theorem roundTrip_not_within_one :
    distanceToTime 100 = 1 ∧
    timeToDistance ((distanceToTime 100 : ℤ) : ℚ) = 83 ∧
    ¬ |((timeToDistance ((distanceToTime 100 : ℤ) : ℚ) : ℚ)) - 100| ≤ 1 := by
  have h1 : distanceToTime 100 = 1 := by
    norm_num [distanceToTime, round_eq]
  have h2 : timeToDistance ((1 : ℤ) : ℚ) = 83 := by
    norm_num [timeToDistance, round_eq]
  refine ⟨h1, by rw [h1]; exact h2, ?_⟩
  rw [h1, h2]
  norm_num

/-- C8 (amended): for every integer meters value `m ≥ 0`,
`timeToDistanceMeters(distanceToTimeMinutes(m))` is within ±42 of `m`
(the minutes grid has 5000/60 ≈ 83.3-meter spacing, so ±1 is unattainable;
42 is tight, attained at `m = 125`). -/
theorem roundTrip_within_42 (m : ℤ) (hm : 0 ≤ m) :
    |timeToDistance ((distanceToTime (m : ℚ) : ℤ) : ℚ) - m| ≤ 42 := by
  set t : ℤ := distanceToTime (m : ℚ) with ht
  set d : ℤ := timeToDistance (t : ℚ) with hd
  have h1 : |(m : ℚ) / 5000 * 60 - (t : ℚ)| ≤ 1 / 2 := by
    simpa [ht, distanceToTime] using abs_sub_round ((m : ℚ) / 5000 * 60)
  have h2 : |(t : ℚ) / 60 * 5000 - (d : ℚ)| ≤ 1 / 2 := by
    simpa [hd, timeToDistance] using abs_sub_round ((t : ℚ) / 60 * 5000)
  have h3 : |(t : ℚ) / 60 * 5000 - (m : ℚ)| ≤ 125 / 3 := by
    have he : (t : ℚ) / 60 * 5000 - (m : ℚ) =
        (250 / 3) * ((t : ℚ) - (m : ℚ) / 5000 * 60) := by ring
    have habs : |(t : ℚ) - (m : ℚ) / 5000 * 60| ≤ 1 / 2 := by
      rw [abs_sub_comm]; exact h1
    calc |(t : ℚ) / 60 * 5000 - (m : ℚ)| = |(250 : ℚ) / 3| * |(t : ℚ) - (m : ℚ) / 5000 * 60| := by
          rw [he, abs_mul]
      _ ≤ |(250 : ℚ) / 3| * (1 / 2) := by
          apply mul_le_mul_of_nonneg_left habs (abs_nonneg _)
      _ = 125 / 3 := by
          rw [abs_of_nonneg (by norm_num : (0 : ℚ) ≤ 250 / 3)]; norm_num
  have h4 : |(d : ℚ) - (m : ℚ)| ≤ 253 / 6 := by
    calc |(d : ℚ) - (m : ℚ)|
        ≤ |(d : ℚ) - (t : ℚ) / 60 * 5000| + |(t : ℚ) / 60 * 5000 - (m : ℚ)| :=
          abs_sub_le (d : ℚ) ((t : ℚ) / 60 * 5000) (m : ℚ)
      _ ≤ 1 / 2 + 125 / 3 := by
          have h2' : |(d : ℚ) - (t : ℚ) / 60 * 5000| ≤ 1 / 2 := by
            rw [abs_sub_comm]; exact h2
          linarith
      _ = 253 / 6 := by norm_num
  have h5 : ((|d - m| : ℤ) : ℚ) < 43 := by
    have hcast : ((|d - m| : ℤ) : ℚ) = |(d : ℚ) - (m : ℚ)| := by
      push_cast
      rfl
    rw [hcast]
    linarith
  have h6 : |d - m| < 43 := by exact_mod_cast h5
  omega

/-- C8 witness: the amended bound applied at the concrete input `m = 100`. -/
theorem roundTrip_within_42_witness :
    (0 : ℤ) ≤ 100 ∧
      |timeToDistance ((distanceToTime ((100 : ℤ) : ℚ) : ℤ) : ℚ) - 100| ≤ 42 :=
  ⟨by decide, roundTrip_within_42 100 (by decide)⟩

/-! ## C6 — trending message selection -/

/-- C6: rank 1 is decided solely by total view count with thresholds 50 and 20,
rank 2 solely by the increase with thresholds 5 and >0, rank 3 solely by the
increase with thresholds 3 and >0, any other rank yields the rank-3 generic
fallback, and in particular `viewCount = 30` at rank 1 selects the middle
("many people are interested") tier. -/
theorem getTrendingMessage_spec :
    (∀ viewCount inc : Int, 50 ≤ viewCount →
      getTrendingMessage 1 viewCount inc = "가장 많은 사람이 보고 있어요!") ∧
    (∀ viewCount inc : Int, 20 ≤ viewCount → viewCount < 50 →
      getTrendingMessage 1 viewCount inc = "많은 사람들이 관심을 보이고 있어요!") ∧
    (∀ viewCount inc : Int, viewCount < 20 →
      getTrendingMessage 1 viewCount inc = "인기 있는 곳이에요!") ∧
    (∀ viewCount inc : Int, 5 ≤ inc →
      getTrendingMessage 2 viewCount inc =
        "급상승! 10분 동안 " ++ toString inc ++ "명이 더 봤어요!") ∧
    (∀ viewCount inc : Int, 0 < inc → inc < 5 →
      getTrendingMessage 2 viewCount inc =
        "인기 상승 중! " ++ toString inc ++ "명이 더 봤어요!") ∧
    (∀ viewCount inc : Int, inc ≤ 0 →
      getTrendingMessage 2 viewCount inc = "인기 있는 곳이에요!") ∧
    (∀ viewCount inc : Int, 3 ≤ inc →
      getTrendingMessage 3 viewCount inc =
        "10분 동안 조회수가 " ++ toString inc ++ "명이 넘게 보고 있어요!") ∧
    (∀ viewCount inc : Int, 0 < inc → inc < 3 →
      getTrendingMessage 3 viewCount inc = toString inc ++ "명이 더 찾고 있어요!") ∧
    (∀ viewCount inc : Int, inc ≤ 0 →
      getTrendingMessage 3 viewCount inc = "많은 사람들이 찾고 있어요!") ∧
    (∀ rank : Nat, ∀ viewCount inc : Int, rank ≠ 1 → rank ≠ 2 → rank ≠ 3 →
      getTrendingMessage rank viewCount inc = "많은 사람들이 찾고 있어요!") ∧
    (∀ viewCount inc inc' : Int,
      getTrendingMessage 1 viewCount inc = getTrendingMessage 1 viewCount inc') ∧
    (∀ viewCount viewCount' inc : Int,
      getTrendingMessage 2 viewCount inc = getTrendingMessage 2 viewCount' inc ∧
      getTrendingMessage 3 viewCount inc = getTrendingMessage 3 viewCount' inc) ∧
    (∀ inc : Int, getTrendingMessage 1 30 inc = "많은 사람들이 관심을 보이고 있어요!") := by
  refine ⟨?_, ?_, ?_, ?_, ?_, ?_, ?_, ?_, ?_, ?_, ?_, ?_, ?_⟩
  case _ => intro vc inc h; unfold getTrendingMessage; split_ifs <;> first | rfl | omega
  case _ => intro vc inc h h'; unfold getTrendingMessage; split_ifs <;> first | rfl | omega
  case _ => intro vc inc h; unfold getTrendingMessage; split_ifs <;> first | rfl | omega
  case _ => intro vc inc h; unfold getTrendingMessage; split_ifs <;> first | rfl | omega
  case _ => intro vc inc h h'; unfold getTrendingMessage; split_ifs <;> first | rfl | omega
  case _ => intro vc inc h; unfold getTrendingMessage; split_ifs <;> first | rfl | omega
  case _ => intro vc inc h; unfold getTrendingMessage; split_ifs <;> first | rfl | omega
  case _ => intro vc inc h h'; unfold getTrendingMessage; split_ifs <;> first | rfl | omega
  case _ => intro vc inc h; unfold getTrendingMessage; split_ifs <;> first | rfl | omega
  case _ =>
    intro rank vc inc h1 h2 h3
    unfold getTrendingMessage
    split_ifs <;> first | rfl | omega
  case _ => intro vc inc inc'; unfold getTrendingMessage; split_ifs <;> first | rfl | omega
  case _ =>
    intro vc vc' inc
    constructor <;> (unfold getTrendingMessage; split_ifs <;> first | rfl | omega)
  case _ => intro inc; unfold getTrendingMessage; split_ifs <;> first | rfl | omega

/-- C6 witness: the tier selections applied at concrete inputs. -/
theorem getTrendingMessage_spec_witness :
    getTrendingMessage 1 55 0 = "가장 많은 사람이 보고 있어요!" ∧
    getTrendingMessage 1 30 7 = "많은 사람들이 관심을 보이고 있어요!" ∧
    getTrendingMessage 2 0 6 = "급상승! 10분 동안 6명이 더 봤어요!" ∧
    getTrendingMessage 3 0 2 = "2명이 더 찾고 있어요!" ∧
    getTrendingMessage 7 100 100 = "많은 사람들이 찾고 있어요!" :=
  ⟨getTrendingMessage_spec.1 55 0 (by decide),
   getTrendingMessage_spec.2.1 30 7 (by decide) (by decide),
   getTrendingMessage_spec.2.2.2.1 0 6 (by decide),
   getTrendingMessage_spec.2.2.2.2.2.2.2.1 0 2 (by decide) (by decide),
   getTrendingMessage_spec.2.2.2.2.2.2.2.2.2.1 7 100 100 (by decide) (by decide) (by decide)⟩

/-! ## C10 — incrementPlaceView error handling -/

/-- C10: `incrementPlaceView` is a total function returning `none` on every
failure outcome (network rejection, non-ok status, missing/non-JSON content
type, blank body, parse failure, non-number JSON) and returns a number exactly
when the response is ok with a JSON content type and a body that parses to a
number.  The hypothesis captures that `JSON.parse` throws on blank input. -/
theorem incrementPlaceView_spec (parseJson : String → Option JsonValue)
    (response : Option FetchResponse)
    (hparse : ∀ s : String, isBlank s = true → parseJson s = none) :
    incrementPlaceView parseJson none = none ∧
    (∀ n : ℚ, incrementPlaceView parseJson response = some n ↔
      ∃ r : FetchResponse, response = some r ∧ r.ok = true ∧
        (∃ ct, r.contentType = some ct ∧ containsSubstring ct "application/json" = true) ∧
        parseJson r.body = some (JsonValue.num n)) := by
  refine ⟨rfl, fun n => ?_⟩
  cases response with
  | none => simp [incrementPlaceView]
  | some r =>
    cases hok : r.ok with
    | false => simp [incrementPlaceView, hok]
    | true =>
      cases hct : r.contentType with
      | none => simp [incrementPlaceView, hok, hct]
      | some ct =>
        by_cases hsub : containsSubstring ct "application/json" = true
        · by_cases hlen : isBlank r.body = true
          · have hpj : parseJson r.body = none := hparse r.body hlen
            simp [incrementPlaceView, hok, hct, hsub, hlen, hpj]
          · cases hpj : parseJson r.body with
            | none => simp [incrementPlaceView, hok, hct, hsub, hlen, hpj]
            | some v =>
              cases v with
              | num k => simp [incrementPlaceView, hok, hct, hsub, hlen, hpj]
              | nonNumber => simp [incrementPlaceView, hok, hct, hsub, hlen, hpj]
        · simp [incrementPlaceView, hok, hct, hsub]

/-- C10 witness: a concrete parser and an ok JSON response with body `"42"`
yield the parsed number 42. -/
theorem incrementPlaceView_spec_witness :
    incrementPlaceView
      (fun s => if isBlank s then none else if s = "42" then some (JsonValue.num 42) else none)
      (some { ok := true, contentType := some "application/json", body := "42" }) =
      some 42 := by
  have hparse : ∀ s : String, isBlank s = true →
      (fun s => if isBlank s then none
        else if s = "42" then some (JsonValue.num 42) else none) s = none := by
    intro s hs
    simp [hs]
  exact ((incrementPlaceView_spec
      (fun s => if isBlank s then none else if s = "42" then some (JsonValue.num 42) else none)
      (some { ok := true, contentType := some "application/json", body := "42" })
      hparse).2 42).mpr
    ⟨{ ok := true, contentType := some "application/json", body := "42" },
      rfl, rfl, ⟨"application/json", rfl, by decide⟩, by decide⟩

/-! ## C1 — selecting a venue of a different type -/

/-- C1: selecting (marker click) a venue whose type is neither `'all'` nor the
current filter makes the filter equal to the venue's type once the operation
settles, and the selected venue is the clicked venue with its view count
patched to the successful view-increment result; the store list is rebuilt by
mapping, replacing the matching entry with a patched copy — entries with other
ids are passed through unchanged (and on increment failure the venue is
selected unpatched with the list untouched). -/
theorem selectVenue_couples_filter_and_patches_selection
    (st : HomeState) (store : Store) (v : Int)
    (hall : store.type ≠ StoreType.all) (hdiff : store.type ≠ st.type) :
    (handleMarkerClick st store (some v)).type = store.type ∧
    (handleMarkerClick st store (some v)).selectedStore =
      some { store with viewCount := some v } ∧
    (handleMarkerClick st store (some v)).stores =
      st.stores.map
        (fun s => if s.id = store.id then { s with viewCount := some v } else s) ∧
    (∀ s ∈ st.stores, s.id ≠ store.id →
      s ∈ (handleMarkerClick st store (some v)).stores) ∧
    (handleMarkerClick st store none).type = store.type ∧
    (handleMarkerClick st store none).selectedStore = some store ∧
    (handleMarkerClick st store none).stores = st.stores := by
  have hcond : ({ store with viewCount := some v } : Store).type ≠ StoreType.all ∧
      ({ store with viewCount := some v } : Store).type ≠ st.type := ⟨hall, hdiff⟩
  refine ⟨?_, ?_, ?_, ?_, ?_, ?_, ?_⟩
  · simp [handleMarkerClick, patchViewCount, hall, hdiff]
  · simp [handleMarkerClick, patchViewCount]
  · simp [handleMarkerClick, patchViewCount]
  · intro s hs hne
    have : (if s.id = store.id then ({ s with viewCount := some v } : Store) else s) = s :=
      if_neg hne
    simp only [handleMarkerClick, patchViewCount]
    rw [← this]
    exact List.mem_map_of_mem _ hs
  · simp [handleMarkerClick, hall, hdiff]
  · simp [handleMarkerClick]
  · simp [handleMarkerClick]

/-- C1 witness: clicking a bar-type store while the filter is `'all'` with a
successful increment to 9. -/
theorem selectVenue_couples_filter_witness :
    (handleMarkerClick demoState (mkStore "m1" StoreType.bar (some 1) none) (some 9)).type =
      StoreType.bar ∧
    (handleMarkerClick demoState (mkStore "m1" StoreType.bar (some 1) none) (some 9)).selectedStore =
      some { mkStore "m1" StoreType.bar (some 1) none with viewCount := some 9 } :=
  ⟨(selectVenue_couples_filter_and_patches_selection demoState
      (mkStore "m1" StoreType.bar (some 1) none) 9 (by decide) (by decide)).1,
   (selectVenue_couples_filter_and_patches_selection demoState
      (mkStore "m1" StoreType.bar (some 1) none) 9 (by decide) (by decide)).2.1⟩

/-! ## C2 — fetch on type-filter change -/

/-- C2 counterexample: after changing the type filter to `cafe`, the dispatched
request body still carries `type = 'all'` — it does not reflect the new
filter, contradicting the claim at this concrete input. -/
theorem fetch_request_type_is_all_not_filter :
    (setTypeFilter demoState StoreType.cafe).type = StoreType.cafe ∧
    (recommendationRequest (setTypeFilter demoState StoreType.cafe)).type = StoreType.all ∧
    (recommendationRequest (setTypeFilter demoState StoreType.cafe)).type ≠
      (setTypeFilter demoState StoreType.cafe).type :=
  ⟨rfl, rfl, by decide⟩

/-- C2 (amended): changing the type filter alone (origin and time unchanged)
dispatches exactly one new fetch, whose request body carries the current
origin and time but always the `'all'` sentinel as `type` (filtering is done
client-side); on success, the response replaces the entire venue list, the
selection is reset to none, the page-size counter is reset to 10 and the
error is cleared. -/
theorem typeFilter_change_triggers_one_full_replace_fetch
    (st : HomeState) (t : StoreType)
    (hloc : st.location.isSome = true) (ht : t ≠ st.type) :
    fetchesDispatched st (setTypeFilter st t) = 1 ∧
    (recommendationRequest (setTypeFilter st t)).type = StoreType.all ∧
    (recommendationRequest (setTypeFilter st t)).timeOption = st.timeOption ∧
    (recommendationRequest (setTypeFilter st t)).latitude = (currentLocation st).lat ∧
    (recommendationRequest (setTypeFilter st t)).longitude = (currentLocation st).lng ∧
    ∀ responseStores : List Store,
      (fetchSuccess (fetchStart (setTypeFilter st t)) responseStores).stores =
        responseStores ∧
      (fetchSuccess (fetchStart (setTypeFilter st t)) responseStores).selectedStore = none ∧
      (fetchSuccess (fetchStart (setTypeFilter st t)) responseStores).displayedCount = 10 ∧
      (fetchSuccess (fetchStart (setTypeFilter st t)) responseStores).error = none := by
  refine ⟨?_, rfl, rfl, rfl, rfl, fun responseStores => ⟨rfl, rfl, rfl, rfl⟩⟩
  unfold fetchesDispatched
  rw [if_pos]
  constructor
  · intro h
    have : st.type = t := by
      simpa [fetchEffectDeps, setTypeFilter, Prod.ext_iff] using h
    exact ht this.symm
  · simpa [setTypeFilter] using hloc

/-- C2 witness: the amended contract applied at the demo state with the filter
changed to `cafe`. -/
theorem typeFilter_change_fetch_witness :
    fetchesDispatched demoState (setTypeFilter demoState StoreType.cafe) = 1 ∧
    (recommendationRequest (setTypeFilter demoState StoreType.cafe)).type = StoreType.all ∧
    (fetchSuccess (fetchStart (setTypeFilter demoState StoreType.cafe)) []).stores = [] :=
  ⟨(typeFilter_change_triggers_one_full_replace_fetch demoState StoreType.cafe rfl
      (by decide)).1,
   (typeFilter_change_triggers_one_full_replace_fetch demoState StoreType.cafe rfl
      (by decide)).2.1,
   ((typeFilter_change_triggers_one_full_replace_fetch demoState StoreType.cafe rfl
      (by decide)).2.2.2.2.2 []).1⟩

/-! ## C3 / C4 — view-count baseline -/

/-- In an association list with pairwise-distinct keys, `lookup` finds the
value of any member pair. -/
theorem lookup_of_nodup_keys {l : List (String × Int)} {a : String} {b : Int}
    (hnd : (l.map Prod.fst).Nodup) (hmem : (a, b) ∈ l) : l.lookup a = some b := by
  induction l with
  | nil => cases hmem
  | cons p t ih =>
    have hnd' : (p.1 :: t.map Prod.fst).Nodup := by
      rw [← List.map_cons]
      exact hnd
    rcases List.mem_cons.mp hmem with h | h
    · subst h
      simp [List.lookup]
    · have hne : a ≠ p.1 := by
        intro he
        apply (List.nodup_cons.mp hnd').1
        exact he ▸ List.mem_map.mpr ⟨(a, b), h, rfl⟩
      have ht : (t.map Prod.fst).Nodup := (List.nodup_cons.mp hnd').2
      obtain ⟨k, v⟩ := p
      have hbeq : (a == k) = false := beq_eq_false_iff_ne.mpr (by simpa using hne)
      simp only [List.lookup, hbeq]
      exact ih ht h

/-- A store present in a duplicate-free list is looked up in the seeded
snapshot at its current count (missing counts seeded as 0). -/
theorem lookup_seedSnapshot {stores : List Store} {s : Store}
    (hnd : (stores.map Store.id).Nodup) (hs : s ∈ stores) :
    (seedSnapshot stores).lookup s.id = some (s.viewCount.getD 0) := by
  apply lookup_of_nodup_keys
  · have hkeys : (seedSnapshot stores).map Prod.fst = (stores.map Store.id).reverse := by
      simp [seedSnapshot, Function.comp_def]
    rw [hkeys]
    exact List.nodup_reverse.mpr hnd
  · unfold seedSnapshot
    rw [List.mem_reverse]
    exact List.mem_map.mpr ⟨s, hs, rfl⟩

/-- Against a freshly seeded snapshot, the fallback increase of every listed
store (with no authoritative backend increase) is zero. -/
theorem computeIncrease_seed_eq_zero {stores : List Store} {s : Store}
    (hnd : (stores.map Store.id).Nodup) (hs : s ∈ stores)
    (hvci : s.viewCountIncrease.getD 0 = 0) :
    computeIncrease (seedSnapshot stores) s = 0 := by
  unfold computeIncrease
  cases hvc : s.viewCount with
  | none => simp [hvci, hvc]
  | some c => simp [hvci, hvc, lookup_seedSnapshot hnd hs]

/-- C3: a non-zero backend-supplied increase is returned unchanged; otherwise
the increase is `max 0 (current - baseline)` with an absent baseline entry
defaulting to the current count (hence never negative, and zero for ids absent
from the baseline); in the fresh-session example the increase for `"a"` is 0
right after initialization and 5 after the count rises from 10 to 15. -/
theorem computeIncrease_spec :
    (∀ (prev : List (String × Int)) (s : Store) (k : Int),
      s.viewCountIncrease = some k → k ≠ 0 → computeIncrease prev s = k) ∧
    (∀ (prev : List (String × Int)) (s : Store) (cur : Int),
      s.viewCountIncrease.getD 0 = 0 → s.viewCount = some cur →
      computeIncrease prev s = max 0 (cur - (prev.lookup s.id).getD cur)) ∧
    (∀ (prev : List (String × Int)) (s : Store),
      s.viewCountIncrease.getD 0 = 0 → 0 ≤ computeIncrease prev s) ∧
    (∀ (prev : List (String × Int)) (s : Store),
      s.viewCountIncrease.getD 0 = 0 → prev.lookup s.id = none →
      computeIncrease prev s = 0) ∧
    computeIncrease
      (initializeViewCounts [mkStore "a" StoreType.restaurant (some 10) none] []
        none none 1000).baseline
      (mkStore "a" StoreType.restaurant (some 10) none) = 0 ∧
    computeIncrease
      (initializeViewCounts [mkStore "a" StoreType.restaurant (some 10) none] []
        none none 1000).baseline
      (mkStore "a" StoreType.restaurant (some 15) none) = 5 := by
  refine ⟨?_, ?_, ?_, ?_, ?_, ?_⟩
  · intro prev s k hk hknz
    unfold computeIncrease
    rw [hk]
    simp [hknz]
  · intro prev s cur hvci hvc
    unfold computeIncrease
    simp [hvci, hvc]
  · intro prev s hvci
    unfold computeIncrease
    cases hvc : s.viewCount with
    | none => simp [hvci, hvc]
    | some c => simp [hvci, hvc]
  · intro prev s hvci hlk
    unfold computeIncrease
    cases hvc : s.viewCount with
    | none => simp [hvci, hvc]
    | some c => simp [hvci, hvc, hlk]
  · decide
  · decide

/-- C3 witness: the general clauses applied at concrete inputs. -/
theorem computeIncrease_spec_witness :
    computeIncrease [("a", 3)] (mkStore "b" StoreType.cafe (some 10) (some 7)) = 7 ∧
    computeIncrease [("a", 3)] (mkStore "a" StoreType.cafe (some 10) none) =
      max 0 (10 - (([("a", 3)] : List (String × Int)).lookup
        (mkStore "a" StoreType.cafe (some 10) none).id).getD 10) ∧
    0 ≤ computeIncrease [] (mkStore "c" StoreType.bar (some 4) none) ∧
    computeIncrease [] (mkStore "c" StoreType.bar (some 4) none) = 0 :=
  ⟨computeIncrease_spec.1 [("a", 3)] (mkStore "b" StoreType.cafe (some 10) (some 7)) 7
      rfl (by decide),
   computeIncrease_spec.2.1 [("a", 3)] (mkStore "a" StoreType.cafe (some 10) none) 10
      rfl rfl,
   computeIncrease_spec.2.2.1 [] (mkStore "c" StoreType.bar (some 4) none) rfl,
   computeIncrease_spec.2.2.2.1 [] (mkStore "c" StoreType.bar (some 4) none) rfl rfl⟩

/-- C4: on initialization with a non-empty store list and an unpopulated
baseline, a persisted snapshot is reused as the baseline exactly when it is
younger than ten minutes; an absent or expired (≥ 10 minutes, e.g. 11 minutes)
snapshot is discarded and a fresh snapshot seeded from current counts (missing
counts as 0) is adopted and persisted, so the first increase computed after
expiry is zero. -/
theorem snapshot_window_spec :
    (∀ (stores : List Store) (saved : List (String × Int)) (ts now : Int),
      stores.length ≠ 0 →
      (now - ts < tenMinutesMs →
        initializeViewCounts stores [] (some saved) (some ts) now = ⟨saved, none⟩) ∧
      (tenMinutesMs ≤ now - ts →
        initializeViewCounts stores [] (some saved) (some ts) now =
          ⟨seedSnapshot stores, some (seedSnapshot stores, now)⟩)) ∧
    (∀ (stores : List Store) (savedTs : Option Int) (now : Int),
      stores.length ≠ 0 →
      initializeViewCounts stores [] none savedTs now =
        ⟨seedSnapshot stores, some (seedSnapshot stores, now)⟩) ∧
    (∀ (stores : List Store) (s : Store) (saved : List (String × Int)) (ts now : Int),
      stores.length ≠ 0 → (stores.map Store.id).Nodup → s ∈ stores →
      s.viewCountIncrease.getD 0 = 0 → tenMinutesMs ≤ now - ts →
      computeIncrease
        (initializeViewCounts stores [] (some saved) (some ts) now).baseline s = 0) ∧
    initializeViewCounts [mkStore "a" StoreType.cafe (some 10) none] []
        (some [("a", 3)]) (some 0) 660000 =
      ⟨[("a", 10)], some ([("a", 10)], 660000)⟩ ∧
    (seedSnapshot [mkStore "z" StoreType.bar none none]).lookup "z" = some 0 := by
  have hbranch : ∀ (stores : List Store) (saved : List (String × Int)) (ts now : Int),
      stores.length ≠ 0 →
      initializeViewCounts stores [] (some saved) (some ts) now =
        if now - ts < tenMinutesMs then ⟨saved, none⟩
        else ⟨seedSnapshot stores, some (seedSnapshot stores, now)⟩ := by
    intro stores saved ts now hlen
    unfold initializeViewCounts
    rw [if_neg (by simp [hlen])]
  refine ⟨?_, ?_, ?_, ?_, by decide⟩
  · intro stores saved ts now hlen
    constructor
    · intro h
      rw [hbranch stores saved ts now hlen, if_pos h]
    · intro h
      rw [hbranch stores saved ts now hlen, if_neg (not_lt.mpr h)]
  · intro stores savedTs now hlen
    unfold initializeViewCounts
    rw [if_neg (by simp [hlen])]
  · intro stores s saved ts now hlen hnd hs hvci hage
    rw [hbranch stores saved ts now hlen, if_neg (not_lt.mpr hage)]
    exact computeIncrease_seed_eq_zero hnd hs hvci
  · decide

/-- C4 witness: the reuse and expiry branches applied at concrete inputs. -/
theorem snapshot_window_spec_witness :
    initializeViewCounts [mkStore "a" StoreType.cafe (some 10) none] []
        (some [("a", 3)]) (some 0) 300000 = ⟨[("a", 3)], none⟩ ∧
    initializeViewCounts [mkStore "a" StoreType.cafe (some 10) none] []
        none none 1000 =
      ⟨seedSnapshot [mkStore "a" StoreType.cafe (some 10) none],
        some (seedSnapshot [mkStore "a" StoreType.cafe (some 10) none], 1000)⟩ ∧
    computeIncrease
      (initializeViewCounts [mkStore "a" StoreType.cafe (some 10) none] []
        (some [("a", 3)]) (some 0) 660000).baseline
      (mkStore "a" StoreType.cafe (some 10) none) = 0 :=
  ⟨((snapshot_window_spec.1 [mkStore "a" StoreType.cafe (some 10) none] [("a", 3)] 0
      300000 (by decide)).1 (by decide)),
   snapshot_window_spec.2.1 [mkStore "a" StoreType.cafe (some 10) none] none 1000
      (by decide),
   snapshot_window_spec.2.2.1 [mkStore "a" StoreType.cafe (some 10) none]
      (mkStore "a" StoreType.cafe (some 10) none) [("a", 3)] 0 660000
      (by decide) (by decide) (by decide) rfl (by decide)⟩

/-! ## C5 — trending top-3 ordering -/

/-- The sort key of a ranked store: (resolved increase, total view count). -/
def rankKey (r : RankedStore) : Int × Int := (r.viewCountIncrease, rankedCount r)

/-- Descending lexicographic comparison of sort keys: higher increase first,
ties broken by higher total view count. -/
def keyGE (x y : Int × Int) : Prop := y.1 < x.1 ∨ (x.1 = y.1 ∧ y.2 ≤ x.2)

/-- The `storeLe` spelt out: `a` may precede `b` exactly when `a`'s key is
lexicographically at least `b`'s (descending by increase, then by count). -/
theorem storeLe_iff (a b : RankedStore) :
    storeLe a b ↔
      (b.viewCountIncrease < a.viewCountIncrease ∨
        (a.viewCountIncrease = b.viewCountIncrease ∧ rankedCount b ≤ rankedCount a)) := by
  unfold storeLe storeCmp
  split_ifs with h <;> omega

instance : IsTotal RankedStore storeLe :=
  ⟨fun a b => by
    rw [storeLe_iff, storeLe_iff]
    omega⟩

instance : IsTrans RankedStore storeLe :=
  ⟨fun a b c hab hbc => by
    rw [storeLe_iff] at *
    omega⟩

/-- Rank reassignment does not change length. -/
theorem assignRanks_length : ∀ (n : Nat) (l : List RankedStore),
    (assignRanks n l).length = l.length
  | _, [] => rfl
  | n, _ :: t => by simp [assignRanks, assignRanks_length (n + 1) t]

/-- Rank reassignment leaves the sort keys (hence order of stores) untouched. -/
theorem assignRanks_map_rankKey : ∀ (n : Nat) (l : List RankedStore),
    (assignRanks n l).map rankKey = l.map rankKey
  | _, [] => rfl
  | n, r :: t => by simp [assignRanks, rankKey, rankedCount, assignRanks_map_rankKey (n + 1) t]

/-- Rank reassignment leaves the store ids untouched. -/
theorem assignRanks_map_id : ∀ (n : Nat) (l : List RankedStore),
    (assignRanks n l).map (fun r => r.store.id) = l.map (fun r => r.store.id)
  | _, [] => rfl
  | n, r :: t => by simp [assignRanks, assignRanks_map_id (n + 1) t]

/-- The assigned ranks are consecutive starting from the accumulator. -/
theorem assignRanks_map_rank : ∀ (n : Nat) (l : List RankedStore),
    (assignRanks n l).map (fun r => r.currentRank) =
      (List.range l.length).map (fun i => i + n)
  | _, [] => rfl
  | n, r :: t => by
    simp only [assignRanks, List.map_cons, List.length_cons, List.range_succ_eq_map,
      assignRanks_map_rank (n + 1) t, List.map_map, Nat.zero_add, Function.comp_def]
    exact congrArg (n :: ·) (List.map_congr_left fun i _ => by omega)

/-- Every element of a rank reassignment is an element of the input with only
the rank changed. -/
theorem mem_assignRanks {x : RankedStore} : ∀ {n : Nat} {l : List RankedStore},
    x ∈ assignRanks n l →
      ∃ y ∈ l, x.store = y.store ∧ x.viewCountIncrease = y.viewCountIncrease := by
  intro n l
  induction l generalizing n with
  | nil => intro h; cases h
  | cons r t ih =>
    intro h
    rcases List.mem_cons.mp h with h | h
    · exact ⟨r, List.mem_cons_self r t, by rw [h], by rw [h]⟩
    · obtain ⟨y, hy, he⟩ := ih h
      exact ⟨y, List.mem_cons_of_mem r hy, he⟩

/-- The three stores of the C5 example: ids 1, 2, 3 with (increase, viewCount)
equal to (2, 30), (5, 10) and (5, 20) respectively. -/
def exampleStores : List Store :=
  [mkStore "1" StoreType.restaurant (some 30) (some 2),
   mkStore "2" StoreType.restaurant (some 10) (some 5),
   mkStore "3" StoreType.restaurant (some 20) (some 5)]

/-- C5: the trending list is sorted descending by resolved increase with ties
broken by descending total view count (stable beyond that), truncated to three
entries, with `currentRank` the 1-based position; every entry is an input
store carrying its resolved increase; and on the concrete example the order is
ids [3, 2, 1] with ranks [1, 2, 3]. -/
theorem topStores_ranking_spec :
    (∀ (prev : List (String × Int)) (stores : List Store),
      ((topStores prev stores).map rankKey).Pairwise keyGE) ∧
    (∀ (prev : List (String × Int)) (stores : List Store),
      (topStores prev stores).length = min 3 stores.length) ∧
    (∀ (prev : List (String × Int)) (stores : List Store),
      (topStores prev stores).map (fun r => r.currentRank) =
        (List.range (min 3 stores.length)).map (fun i => i + 1)) ∧
    (∀ (prev : List (String × Int)) (stores : List Store),
      ∀ r ∈ topStores prev stores,
        ∃ s ∈ stores, r.store = s ∧ r.viewCountIncrease = computeIncrease prev s) ∧
    (∀ (prev : List (String × Int)) (stores : List Store) (a b : RankedStore),
      storeCmp a b = 0 →
      List.Sublist [a, b] (stores.map (addIncrease prev)) →
      List.Sublist [a, b] ((stores.map (addIncrease prev)).insertionSort storeLe)) ∧
    (topStores [] exampleStores).map (fun r => r.store.id) = ["3", "2", "1"] ∧
    (topStores [] exampleStores).map (fun r => r.currentRank) = [1, 2, 3] := by
  refine ⟨?_, ?_, ?_, ?_, ?_, by decide, by decide⟩
  · intro prev stores
    unfold topStores
    rw [assignRanks_map_rankKey]
    rw [List.pairwise_map]
    have hsorted : ((stores.map (addIncrease prev)).insertionSort storeLe).Pairwise storeLe :=
      List.sorted_insertionSort storeLe (stores.map (addIncrease prev))
    have htake := List.Pairwise.sublist (List.take_sublist 3 _) hsorted
    refine htake.imp ?_
    intro a b hab
    have := (storeLe_iff a b).mp hab
    unfold keyGE rankKey
    simpa using this
  · intro prev stores
    unfold topStores
    rw [assignRanks_length, List.length_take, List.length_insertionSort, List.length_map]
  · intro prev stores
    unfold topStores
    rw [assignRanks_map_rank]
    rw [List.length_take, List.length_insertionSort, List.length_map]
  · intro prev stores r hr
    obtain ⟨y, hy, hstore, hinc⟩ := mem_assignRanks hr
    have hy' : y ∈ (stores.map (addIncrease prev)).insertionSort storeLe :=
      List.take_subset 3 _ hy
    have hy'' : y ∈ stores.map (addIncrease prev) :=
      (List.mem_insertionSort storeLe).mp hy'
    obtain ⟨s, hs, he⟩ := List.mem_map.mp hy''
    refine ⟨s, hs, ?_, ?_⟩
    · rw [hstore, ← he]
      rfl
    · rw [hinc, ← he]
      rfl
  · intro prev stores a b hcmp hsub
    exact List.pair_sublist_insertionSort (by unfold storeLe; omega) hsub

/-- C5 witness: the membership clause at the top-ranked example entry, and the
stability clause on a fully tied pair. -/
theorem topStores_ranking_spec_witness :
    (∃ s ∈ exampleStores,
      ({ store := mkStore "3" StoreType.restaurant (some 20) (some 5),
         viewCountIncrease := 5, currentRank := 1 } : RankedStore).store = s ∧
      ({ store := mkStore "3" StoreType.restaurant (some 20) (some 5),
         viewCountIncrease := 5, currentRank := 1 } : RankedStore).viewCountIncrease =
        computeIncrease [] s) ∧
    List.Sublist
      [addIncrease [] (mkStore "x" StoreType.cafe (some 1) (some 4)),
       addIncrease [] (mkStore "y" StoreType.cafe (some 1) (some 4))]
      (([mkStore "x" StoreType.cafe (some 1) (some 4),
         mkStore "y" StoreType.cafe (some 1) (some 4)].map
          (addIncrease [])).insertionSort storeLe) :=
  ⟨topStores_ranking_spec.2.2.2.1 [] exampleStores
      { store := mkStore "3" StoreType.restaurant (some 20) (some 5),
        viewCountIncrease := 5, currentRank := 1 } (by decide),
   topStores_ranking_spec.2.2.2.2.1 []
      [mkStore "x" StoreType.cafe (some 1) (some 4),
       mkStore "y" StoreType.cafe (some 1) (some 4)]
      (addIncrease [] (mkStore "x" StoreType.cafe (some 1) (some 4)))
      (addIncrease [] (mkStore "y" StoreType.cafe (some 1) (some 4)))
      (by decide) (List.Sublist.refl _)⟩

end CesEats
